import Mathlib

/-!
Shallow embedding of the coin-wallet / redemption subsystem of the
share-crop backend (Express + PostgreSQL), together with theorems about
the claims of the specification.

Modelling conventions:
* a database snapshot is a `DB` record of row lists; SQL `UPDATE` maps
  over the matching rows, `INSERT` appends;
* each route handler / service function becomes a pure function
  `DB → inputs → (response × DB)`; a `ROLLBACK` branch returns the input
  snapshot unchanged, a `COMMIT` branch returns the mutated snapshot;
* JavaScript numbers that hold coin amounts are modelled as `Int`
  (balances in this code are integral; SQL NULL / NaN coercions via
  `Number(x) || 0` are outside the model);
* request-body fields that may fail the `typeof x !== 'number'` check are
  modelled as `Option Int` (`none` = not a number);
* failures of individual SQL statements that the code catches (for
  example the ledger `INSERT` in the deduct route) are modelled by a
  boolean fault-injection parameter.
-/

namespace ShareCrop

/-- Row of the `users` table (the columns the coin subsystem touches). -/
structure UserRow where
  id : Nat
  coins : Int
  locked_coins : Int
  stripe_connect_account_id : Option String
deriving Repr, DecidableEq

/-- Row of the `coin_transactions` ledger table. -/
structure CoinTx where
  user_id : Nat
  type : String
  amount : Int
  balance_after : Int
  reason : String
  ref_type : Option String
  ref_id : Option Nat
  status : Option String
deriving Repr, DecidableEq

/-- Row of the `coin_purchases` table (columns used by the webhook). -/
structure PurchaseRow where
  id : Nat
  farmer_id : Nat
  coins_purchased : Int
  payment_ref : String
  status : String
deriving Repr, DecidableEq

/-- Row of the `redemption_requests` table (columns used by the
redemption service). -/
structure RedemptionRow where
  id : Nat
  user_id : Nat
  coins_requested : Int
  status : String
  stripe_transfer_id : Option String
  payout_method_id : Option Nat
deriving Repr, DecidableEq

/-- Row of the `user_payout_methods` table (ownership only). -/
structure PayoutMethodRow where
  id : Nat
  user_id : Nat
deriving Repr, DecidableEq

/-- A database snapshot: the five tables the claims are about. -/
structure DB where
  users : List UserRow
  coin_transactions : List CoinTx
  coin_purchases : List PurchaseRow
  redemption_requests : List RedemptionRow
  user_payout_methods : List PayoutMethodRow
deriving Repr, DecidableEq

/-- The authenticated requester attached by the auth middleware. -/
structure ReqUser where
  id : Nat
  user_type : String
deriving Repr, DecidableEq

/-- SELECT ... FROM users WHERE id = $1 (first matching row). -/
def findUser (db : DB) (uid : Nat) : Option UserRow :=
  db.users.find? (fun u => u.id == uid)

/-- UPDATE users SET ... WHERE id = $1 (maps every matching row). -/
def updateUser (db : DB) (uid : Nat) (g : UserRow → UserRow) : DB :=
  { db with users := db.users.map (fun u => if u.id == uid then g u else u) }

/-- INSERT INTO coin_transactions ... (appends one ledger row). -/
def appendTx (db : DB) (t : CoinTx) : DB :=
  { db with coin_transactions := db.coin_transactions ++ [t] }

/-- SELECT ... FROM coin_purchases WHERE payment_ref = $1 (first row). -/
def findPurchaseByRef (db : DB) (ref : String) : Option PurchaseRow :=
  db.coin_purchases.find? (fun p => p.payment_ref == ref)

/-- SELECT ... FROM coin_purchases WHERE id = $1 (first row). -/
def findPurchaseById (db : DB) (pid : Nat) : Option PurchaseRow :=
  db.coin_purchases.find? (fun p => p.id == pid)

/-- UPDATE coin_purchases SET ... WHERE id = $1. -/
def updatePurchase (db : DB) (pid : Nat) (g : PurchaseRow → PurchaseRow) : DB :=
  { db with coin_purchases := db.coin_purchases.map (fun p => if p.id == pid then g p else p) }

/-- SELECT ... FROM redemption_requests WHERE id = $1 (first row). -/
def findRedemption (db : DB) (rid : Nat) : Option RedemptionRow :=
  db.redemption_requests.find? (fun r => r.id == rid)

/-- UPDATE redemption_requests SET ... WHERE id = $1. -/
def updateRedemption (db : DB) (rid : Nat) (g : RedemptionRow → RedemptionRow) : DB :=
  { db with redemption_requests := db.redemption_requests.map (fun r => if r.id == rid then g r else r) }

/-- SELECT id, user_id FROM user_payout_methods WHERE id = $1. -/
def findPayoutMethod (db : DB) (pmid : Nat) : Option PayoutMethodRow :=
  db.user_payout_methods.find? (fun m => m.id == pmid)

/-- Response of POST /coins/:userId/deduct (routes/coins.js). -/
inductive DeductResp where
  | forbidden
  | invalidAmount
  | userNotFound
  | insufficient (currentCoins requested shortfall : Int)
  | ok (coins deducted balanceBefore balanceAfter : Int)
deriving Repr, DecidableEq

/-- POST /coins/:userId/deduct, routes/coins.js lines 739-830.
BEGIN; auth check; amount validation; SELECT coins FOR UPDATE;
insufficient-balance check; UPDATE coins (its RETURNING value is
captured); ledger INSERT inside a try/catch that only logs; COMMIT.
When the INSERT fails, PostgreSQL aborts the transaction, so the
swallowing catch leaves an aborted transaction whose final COMMIT is
executed as a rollback: no row change persists, yet the handler builds
its 200 response from the values captured before the abort
(`ledgerInsertFails` injects that failure). Every error branch rolls
back (returns the input snapshot). -/
def deductRoute (db : DB) (reqUser : ReqUser) (userId : Nat)
    (amount : Option Int) (reason refType : Option String) (refId : Option Nat)
    (ledgerInsertFails : Bool) : DeductResp × DB :=
  if ¬ (reqUser.id == userId || reqUser.user_type == "admin") then
    (.forbidden, db)
  else
    match amount with
    | none => (.invalidAmount, db)
    | some amt =>
      if amt ≤ 0 then (.invalidAmount, db)
      else
        match findUser db userId with
        | none => (.userNotFound, db)
        | some u =>
          let currentCoins := u.coins
          if currentCoins < amt then
            (.insufficient currentCoins amt (amt - currentCoins), db)
          else
            let newCoins := currentCoins - amt
            if ledgerInsertFails then
              (.ok newCoins amt currentCoins newCoins, db)
            else
              let db1 := updateUser db userId (fun v => { v with coins := newCoins })
              let db2 := appendTx db1
                { user_id := userId, type := "debit", amount := amt,
                  balance_after := newCoins,
                  reason := reason.getD "Field purchase",
                  ref_type := some (refType.getD "order"), ref_id := refId,
                  status := none }
              (.ok newCoins amt currentCoins newCoins, db2)

/-- Response of POST /coins/:userId/add and of PUT /coins/:userId. -/
inductive AddResp where
  | forbidden
  | invalidAmount
  | userNotFound
  | ok (coins : Int)
deriving Repr, DecidableEq

/-- The balance read of POST /coins/:userId/add (plain SELECT, no
transaction, no FOR UPDATE), routes/coins.js lines 848-857. -/
def addRouteRead (db : DB) (userId : Nat) : Option Int :=
  (findUser db userId).map (fun u => u.coins)

/-- The balance write of POST /coins/:userId/add (plain UPDATE, no
transaction), routes/coins.js lines 860-863. -/
def addRouteWrite (db : DB) (userId : Nat) (newCoins : Int) : DB :=
  updateUser db userId (fun v => { v with coins := newCoins })

/-- POST /coins/:userId/add, routes/coins.js lines 833-870: auth check,
amount validation, then an unguarded read-then-write on pool.query
(no BEGIN, no FOR UPDATE). -/
def addRoute (db : DB) (reqUser : ReqUser) (userId : Nat)
    (amount : Option Int) : AddResp × DB :=
  if ¬ (reqUser.id == userId || reqUser.user_type == "admin") then
    (.forbidden, db)
  else
    match amount with
    | none => (.invalidAmount, db)
    | some amt =>
      if amt ≤ 0 then (.invalidAmount, db)
      else
        match addRouteRead db userId with
        | none => (.userNotFound, db)
        | some currentCoins =>
          let newCoins := currentCoins + amt
          (.ok newCoins, addRouteWrite db userId newCoins)

/-- PUT /coins/:userId, routes/coins.js lines 708-736: auth check, rejects
non-number or negative values with 400, then a single unguarded UPDATE
(no transaction, no read). -/
def putCoinsRoute (db : DB) (reqUser : ReqUser) (userId : Nat)
    (coins : Option Int) : AddResp × DB :=
  if ¬ (reqUser.id == userId || reqUser.user_type == "admin") then
    (.forbidden, db)
  else
    match coins with
    | none => (.invalidAmount, db)
    | some c =>
      if c < 0 then (.invalidAmount, db)
      else
        match findUser db userId with
        | none => (.userNotFound, db)
        | some _ =>
          (.ok c, updateUser db userId (fun v => { v with coins := c }))

/-- Result of the wallet service functions deductCoins / creditCoins
(src/modules/coins, second module of packageService.js). -/
inductive SvcResult where
  | userNotFound
  | insufficient (available required : Int)
  | insertFailed
  | ok (newBalance : Int)
deriving Repr, DecidableEq

/-- deductCoins(userId, amount, options), wallet service lines 353-402.
BEGIN; SELECT coins FOR UPDATE; throw when rows empty or when
currentCoins < amount; UPDATE coins; ledger INSERT (type debit, status
completed); COMMIT. The catch block rolls back and rethrows, so an
injected INSERT failure (`insertFails`) yields an error with the
snapshot unchanged. No positivity check is performed on `amount`. -/
def deductCoins (db : DB) (userId : Nat) (amount : Int)
    (reason refType : Option String) (refId : Option Nat)
    (insertFails : Bool) : SvcResult × DB :=
  match findUser db userId with
  | none => (.userNotFound, db)
  | some u =>
    if u.coins < amount then (.insufficient u.coins amount, db)
    else
      let newBalance := u.coins - amount
      if insertFails then (.insertFailed, db)
      else
        let db1 := updateUser db userId (fun v => { v with coins := newBalance })
        let db2 := appendTx db1
          { user_id := userId, type := "debit", amount := amount,
            balance_after := newBalance, reason := reason.getD "Purchase",
            ref_type := refType, ref_id := refId, status := some "completed" }
        (.ok newBalance, db2)

/-- creditCoins(userId, amount, options), wallet service lines 408-452.
Same shape as deductCoins but adds the amount; it performs no check on
`amount` at all (neither positivity nor any bound). -/
def creditCoins (db : DB) (userId : Nat) (amount : Int)
    (reason refType : Option String) (refId : Option Nat)
    (insertFails : Bool) : SvcResult × DB :=
  match findUser db userId with
  | none => (.userNotFound, db)
  | some u =>
    let newBalance := u.coins + amount
    if insertFails then (.insertFailed, db)
    else
      let db1 := updateUser db userId (fun v => { v with coins := newBalance })
      let db2 := appendTx db1
        { user_id := userId, type := "credit", amount := amount,
          balance_after := newBalance, reason := reason.getD "Credit",
          ref_type := refType, ref_id := refId, status := some "completed" }
      (.ok newBalance, db2)

/-- Environment defaults of the redemption service (third module of
packageService.js, lines 484-489). -/
def REDEMPTION_MIN_COINS : Int := 1000

/-- Default REDEMPTION_MAX_COINS. -/
def REDEMPTION_MAX_COINS : Int := 1000000

/-- Default REDEMPTION_COINS_PER_USD. -/
def REDEMPTION_COINS_PER_USD : Int := 100

/-- Default REDEMPTION_PLATFORM_FEE_PERCENT. -/
def REDEMPTION_PLATFORM_FEE_PERCENT : Int := 20

/-- Result of createRedemptionRequest. -/
inductive RedeemCreateResult where
  | invalidRange
  | alreadyPending
  | payoutMethodNotFound
  | payoutMethodNotYours
  | userNotFound
  | insufficient (available requested : Int)
  | ok (redemptionId : Nat) (payout_amount_cents : Int)
deriving Repr, DecidableEq

/-- Next serial id for an inserted row. -/
def nextId (l : List Nat) : Nat := l.foldr max 0 + 1

/-- createRedemptionRequest(userId, coinsRequested, payoutMethodId),
redemption service lines 495-604. BEGIN; range check; existing
pending/under_review check; payout-method ownership check; SELECT coins,
locked_coins FOR UPDATE; balance check; move coinsRequested from coins to
locked_coins; INSERT redemption row (status pending); INSERT ledger row
(type redeem_request); COMMIT. The float fee arithmetic is modelled with
exact integer floor division. -/
def createRedemptionRequest (db : DB) (userId : Nat) (coinsRequested : Int)
    (payoutMethodId : Option Nat) : RedeemCreateResult × DB :=
  if ¬ (REDEMPTION_MIN_COINS ≤ coinsRequested ∧ coinsRequested ≤ REDEMPTION_MAX_COINS) then
    (.invalidRange, db)
  else if db.redemption_requests.any
      (fun r => r.user_id == userId && (r.status == "pending" || r.status == "under_review")) then
    (.alreadyPending, db)
  else
    let ownershipError : Option RedeemCreateResult :=
      match payoutMethodId with
      | none => none
      | some pmid =>
        match findPayoutMethod db pmid with
        | none => some .payoutMethodNotFound
        | some m => if m.user_id == userId then none else some .payoutMethodNotYours
    match ownershipError with
    | some e => (e, db)
    | none =>
      match findUser db userId with
      | none => (.userNotFound, db)
      | some u =>
        if u.coins < coinsRequested then (.insufficient u.coins coinsRequested, db)
        else
          let fiatAmountCents := Int.fdiv (coinsRequested * 100) REDEMPTION_COINS_PER_USD
          let platformFeeCents := Int.fdiv (fiatAmountCents * REDEMPTION_PLATFORM_FEE_PERCENT) 100
          let payoutAmountCents := fiatAmountCents - platformFeeCents
          let newCoins := u.coins - coinsRequested
          let newLocked := u.locked_coins + coinsRequested
          let rid := nextId (db.redemption_requests.map (fun r => r.id))
          let db1 := updateUser db userId
            (fun v => { v with coins := newCoins, locked_coins := newLocked })
          let db2 := { db1 with redemption_requests := db1.redemption_requests ++
            [{ id := rid, user_id := userId, coins_requested := coinsRequested,
               status := "pending", stripe_transfer_id := none,
               payout_method_id := payoutMethodId }] }
          let db3 := appendTx db2
            { user_id := userId, type := "redeem_request", amount := coinsRequested,
              balance_after := newCoins, reason := "Redemption request",
              ref_type := some "redemption_request", ref_id := some rid,
              status := some "completed" }
          (.ok rid payoutAmountCents, db3)

/-- Result of rejectRedemption. -/
inductive RejectResult where
  | notFound
  | invalidStatus (s : String)
  | userMissing
  | ok
deriving Repr, DecidableEq

/-- rejectRedemption(redemptionId, adminId, adminNotes), redemption
service lines 610-680. BEGIN; SELECT redemption FOR UPDATE; status must
be pending or under_review; SELECT user FOR UPDATE (reading the missing
row later throws, hence `userMissing` rolls back); UPDATE users SET
coins = coins + cr, locked_coins = locked_coins - cr; mark redemption
rejected; ledger row redeem_rejected; COMMIT. -/
def rejectRedemption (db : DB) (redemptionId : Nat) : RejectResult × DB :=
  match findRedemption db redemptionId with
  | none => (.notFound, db)
  | some r =>
    if ¬ (r.status == "pending" || r.status == "under_review") then
      (.invalidStatus r.status, db)
    else
      match findUser db r.user_id with
      | none => (.userMissing, db)
      | some u =>
        let newBalance := u.coins + r.coins_requested
        let db1 := updateUser db r.user_id
          (fun v => { v with coins := v.coins + r.coins_requested,
                             locked_coins := v.locked_coins - r.coins_requested })
        let db2 := updateRedemption db1 redemptionId
          (fun x => { x with status := "rejected" })
        let db3 := appendTx db2
          { user_id := r.user_id, type := "redeem_rejected",
            amount := r.coins_requested, balance_after := newBalance,
            reason := "Redemption rejected", ref_type := some "redemption_request",
            ref_id := some redemptionId, status := some "completed" }
        (.ok, db3)

/-- Result of approveRedemption. -/
inductive ApproveResult where
  | notFound
  | alreadyPaid (transferId : Option String)
  | invalidStatus (s : String)
  | paid (transferId : String)
  | manualApproved
  | transferFailed
  | userMissing
deriving Repr, DecidableEq

/-- approveRedemption(redemptionId, adminId, adminNotes), redemption
service lines 686-976. First transaction: lock the redemption row; if
status is already `paid` return success (Already paid); other terminal
statuses are rejected; otherwise set status to `approved` and COMMIT.
Then, when the user has a Stripe Connect account, create the transfer
(`transferOk` injects its outcome): on success a second transaction marks
the row `paid`, stores the transfer id, deducts `coins_requested` from
`locked_coins` and writes a redeem_approved ledger row; on failure a
compensation transaction moves the coins from locked back to available,
marks the row `failed` and writes a redeem_rejected ledger row, then the
error is rethrown. Without a Connect account the manual-payout branch
deducts the locked coins and writes the redeem_approved ledger row but
leaves the status at `approved`. -/
def approveRedemption (db : DB) (redemptionId : Nat)
    (transferOk : Bool) (newTransferId : String) : ApproveResult × DB :=
  match findRedemption db redemptionId with
  | none => (.notFound, db)
  | some r =>
    if r.status == "paid" then (.alreadyPaid r.stripe_transfer_id, db)
    else if ¬ (r.status == "pending" || r.status == "under_review" || r.status == "approved") then
      (.invalidStatus r.status, db)
    else
      let db1 := updateRedemption db redemptionId (fun x => { x with status := "approved" })
      match findUser db1 r.user_id with
      | none => (.userMissing, db1)
      | some u =>
        match u.stripe_connect_account_id with
        | some _ =>
          if transferOk then
            let db2 := updateRedemption db1 redemptionId
              (fun x => { x with status := "paid", stripe_transfer_id := some newTransferId })
            let db3 := updateUser db2 r.user_id
              (fun v => { v with locked_coins := v.locked_coins - r.coins_requested })
            let newLocked := u.locked_coins - r.coins_requested
            let db4 := appendTx db3
              { user_id := r.user_id, type := "redeem_approved",
                amount := r.coins_requested, balance_after := newLocked,
                reason := "Redemption paid", ref_type := some "redemption_request",
                ref_id := some redemptionId, status := some "completed" }
            (.paid newTransferId, db4)
          else
            let db2 := updateUser db1 r.user_id
              (fun v => { v with coins := v.coins + r.coins_requested,
                                 locked_coins := v.locked_coins - r.coins_requested })
            let db3 := updateRedemption db2 redemptionId
              (fun x => { x with status := "failed" })
            let newBalance := u.coins + r.coins_requested
            let db4 := appendTx db3
              { user_id := r.user_id, type := "redeem_rejected",
                amount := r.coins_requested, balance_after := newBalance,
                reason := "Redemption failed - Stripe transfer error",
                ref_type := some "redemption_request", ref_id := some redemptionId,
                status := some "completed" }
            (.transferFailed, db4)
        | none =>
          let db2 := updateUser db1 r.user_id
            (fun v => { v with locked_coins := v.locked_coins - r.coins_requested })
          let newLocked := u.locked_coins - r.coins_requested
          let db3 := appendTx db2
            { user_id := r.user_id, type := "redeem_approved",
              amount := r.coins_requested, balance_after := newLocked,
              reason := "Redemption approved (manual payout)",
              ref_type := some "redemption_request", ref_id := some redemptionId,
              status := some "completed" }
          (.manualApproved, db3)

/-- Request-level facts of a POST /webhooks/stripe call: whether both
Stripe secrets are configured, whether constructEvent accepts the
signature, the event type and session id, and an injected failure of a
statement inside the credit transaction. -/
structure WebhookReq where
  configured : Bool
  sigValid : Bool
  eventType : String
  sessionId : String
  insertFails : Bool
deriving Repr, DecidableEq

/-- Response of POST /webhooks/stripe (routes/webhooks.js). -/
inductive WebhookResp where
  | notConfigured
  | sigError
  | received
  | purchaseNotFound
  | alreadyProcessed
  | userNotFound
  | creditedOk
  | processingFailed
deriving Repr, DecidableEq

/-- POST /webhooks/stripe, routes/webhooks.js lines 6-144. Config check;
constructEvent signature check (400 before any query); non
checkout.session.completed events acknowledged untouched; lookup of the
coin_purchases row by payment_ref; early already_processed exit when its
status is completed; then BEGIN, re-lock and re-check the purchase row,
lock the user row, credit coins_purchased, append the credit ledger row,
mark the purchase completed, COMMIT. A failure inside the transaction
(`insertFails`) hits the catch: ROLLBACK, rethrow, outer 500. -/
def stripeWebhook (db : DB) (req : WebhookReq) : WebhookResp × DB :=
  if ¬ req.configured then (.notConfigured, db)
  else if ¬ req.sigValid then (.sigError, db)
  else if req.eventType ≠ "checkout.session.completed" then (.received, db)
  else
    match findPurchaseByRef db req.sessionId with
    | none => (.purchaseNotFound, db)
    | some existing =>
      if existing.status == "completed" then (.alreadyProcessed, db)
      else
        match findPurchaseById db existing.id with
        | none => (.alreadyProcessed, db)
        | some locked =>
          if locked.status == "completed" then (.alreadyProcessed, db)
          else
            match findUser db existing.farmer_id with
            | none => (.userNotFound, db)
            | some u =>
              let coinsToAdd := existing.coins_purchased
              let balanceAfter := u.coins + coinsToAdd
              if req.insertFails then (.processingFailed, db)
              else
                let db1 := updateUser db existing.farmer_id
                  (fun v => { v with coins := balanceAfter })
                let db2 := appendTx db1
                  { user_id := existing.farmer_id, type := "credit",
                    amount := coinsToAdd, balance_after := balanceAfter,
                    reason := "Coin purchase", ref_type := some "coin_purchase",
                    ref_id := some existing.id, status := some "completed" }
                let db3 := updatePurchase db2 existing.id
                  (fun p => { p with status := "completed" })
                (.creditedOk, db3)

/-- An HTTP response as seen on the wire: its status code and whether the
body is JSON (res.json) or plain text (res.send of a string). -/
structure HttpResp where
  status : Nat
  jsonBody : Bool
deriving Repr, DecidableEq

/-- Status code and body kind of each deduct-route response
(routes/coins.js lines 750, 757, 768, 776, 816: all res.json). -/
def DeductResp.http : DeductResp → HttpResp
  | .forbidden => ⟨403, true⟩
  | .invalidAmount => ⟨400, true⟩
  | .userNotFound => ⟨404, true⟩
  | .insufficient _ _ _ => ⟨400, true⟩
  | .ok _ _ _ _ => ⟨200, true⟩

/-- Status code and body kind of each add-route / put-route response. -/
def AddResp.http : AddResp → HttpResp
  | .forbidden => ⟨403, true⟩
  | .invalidAmount => ⟨400, true⟩
  | .userNotFound => ⟨404, true⟩
  | .ok _ => ⟨200, true⟩

/-- Status code and body kind of each webhook response: the error
branches use res.status(...).send(string), the success branches res.json
(routes/webhooks.js lines 13, 23, 28, 52, 58, 77, 89, 138, 142). -/
def WebhookResp.http : WebhookResp → HttpResp
  | .notConfigured => ⟨500, false⟩
  | .sigError => ⟨400, false⟩
  | .received => ⟨200, true⟩
  | .purchaseNotFound => ⟨400, false⟩
  | .alreadyProcessed => ⟨200, true⟩
  | .userNotFound => ⟨500, false⟩
  | .creditedOk => ⟨200, true⟩
  | .processingFailed => ⟨500, false⟩

/-- The response of POST /coins/purchase-intent when STRIPE_SECRET_KEY is
absent: res.status(503).json({ error: 'Payment service not configured' }),
routes/coins.js lines 77-79. -/
def purchaseIntentNoStripeResp : HttpResp := ⟨503, true⟩

/-- The catch-branch response of GET /rented-fields:
res.status(500).send('Server Error'), routes/rentedFields.js
lines 10-13 (a plain-text body). -/
def rentedFieldsListErrorResp : HttpResp := ⟨500, false⟩

/-- The status codes the specification allows for error responses. -/
def specErrorStatuses : List Nat := [400, 401, 403, 404, 409, 500]

/-- Sample snapshot: one user with 10 available coins. -/
def dbOneUser : DB :=
  { users := [{ id := 1, coins := 10, locked_coins := 0, stripe_connect_account_id := none }],
    coin_transactions := [], coin_purchases := [], redemption_requests := [],
    user_payout_methods := [] }

/-- Sample snapshot: a pending coin purchase of 50 coins for user 1. -/
def dbPendingPurchase : DB :=
  { users := [{ id := 1, coins := 10, locked_coins := 0, stripe_connect_account_id := none }],
    coin_transactions := [],
    coin_purchases := [{ id := 4, farmer_id := 1, coins_purchased := 50,
                         payment_ref := "cs_test_1", status := "pending" }],
    redemption_requests := [], user_payout_methods := [] }

/-- Sample snapshot: user 7 has 1000 locked coins, no Stripe Connect
account, and a pending redemption of those 1000 coins. -/
def dbManualRedemption : DB :=
  { users := [{ id := 7, coins := 0, locked_coins := 1000, stripe_connect_account_id := none }],
    coin_transactions := [], coin_purchases := [],
    redemption_requests := [{ id := 1, user_id := 7, coins_requested := 1000,
                              status := "pending", stripe_transfer_id := none,
                              payout_method_id := none }],
    user_payout_methods := [] }

/-- Sample snapshot: user 3 holds 1500 coins (enough to redeem 1000) and
user 4 has 800 coins locked behind the pending redemption 9. -/
def dbRedeemAndReject : DB :=
  { users := [{ id := 3, coins := 1500, locked_coins := 0, stripe_connect_account_id := none },
              { id := 4, coins := 0, locked_coins := 800, stripe_connect_account_id := none }],
    coin_transactions := [], coin_purchases := [],
    redemption_requests := [{ id := 9, user_id := 4, coins_requested := 800,
                              status := "pending", stripe_transfer_id := none,
                              payout_method_id := none }],
    user_payout_methods := [] }

/-- The payout cents createRedemptionRequest computes for a request:
fiat cents after conversion minus the platform fee. -/
def payoutCentsOf (cr : Int) : Int :=
  let fiat := Int.fdiv (cr * 100) REDEMPTION_COINS_PER_USD
  fiat - Int.fdiv (fiat * REDEMPTION_PLATFORM_FEE_PERCENT) 100

/-- A webhook request with a valid signature for the sample session. -/
def reqValidCheckout : WebhookReq :=
  { configured := true, sigValid := true,
    eventType := "checkout.session.completed", sessionId := "cs_test_1",
    insertFails := false }

/-- Sample snapshot: the same purchase already marked completed. -/
def dbCompletedPurchase : DB :=
  { users := [{ id := 1, coins := 10, locked_coins := 0, stripe_connect_account_id := none }],
    coin_transactions := [],
    coin_purchases := [{ id := 4, farmer_id := 1, coins_purchased := 50,
                         payment_ref := "cs_test_1", status := "completed" }],
    redemption_requests := [], user_payout_methods := [] }

/-- Two concurrent POST /coins/:userId/add requests interleaved at the
await points the handler exposes: because the handler holds no
transaction and no row lock, both requests can read the same balance
before either writes; each write then stores its own read plus its own
amount, so the second write overwrites the first. -/
def addTwoInterleaved (db : DB) (userId : Nat) (a1 a2 : Int) : DB :=
  match addRouteRead db userId, addRouteRead db userId with
  | some c1, some c2 =>
    addRouteWrite (addRouteWrite db userId (c1 + a1)) userId (c2 + a2)
  | _, _ => db

/-- The same two add requests run one after the other (the owner issuing
both). -/
def addTwoSerial (db : DB) (userId : Nat) (a1 a2 : Int) : DB :=
  (addRoute (addRoute db ⟨userId, "admin"⟩ userId (some a1)).2
    ⟨userId, "admin"⟩ userId (some a2)).2

/-- List.find? over a mapped list, when the map does not change the
predicate's verdict on any element. -/
theorem find?_map_of_pred {α : Type} (f : α → α) (p : α → Bool)
    (hf : ∀ x, p (f x) = p x) (l : List α) :
    (l.map f).find? p = (l.find? p).map f := by
  induction l with
  | nil => rfl
  | cons x xs ih =>
    by_cases hp : p x
    · simp [List.find?, hf x, hp]
    · simp only [Bool.not_eq_true] at hp
      simp [List.find?, hf x, hp, ih]

/-- Looking up the updated user after an id-preserving UPDATE returns
the updated row. -/
theorem findUser_updateUser_self (db : DB) (uid : Nat) (g : UserRow → UserRow)
    (hg : ∀ u, (g u).id = u.id) (u : UserRow) (h : findUser db uid = some u) :
    findUser (updateUser db uid g) uid = some (g u) := by
  have hf : ∀ x : UserRow,
      ((if x.id == uid then g x else x).id == uid) = (x.id == uid) := by
    intro x
    by_cases hx : x.id == uid
    · simp [hx, hg]
    · simp [hx]
  unfold findUser at h
  have hu : (u.id == uid) = true := by simpa using List.find?_some h
  unfold findUser updateUser
  rw [find?_map_of_pred _ _ hf]
  rw [h]
  simp only [Option.map_some', Option.some.injEq]
  rw [if_pos hu]

/-- Looking up a purchase by payment_ref after a ref-preserving UPDATE of
some purchase row returns the mapped first match. -/
theorem findPurchaseByRef_updatePurchase (db : DB) (pid : Nat)
    (g : PurchaseRow → PurchaseRow) (hg : ∀ p, (g p).payment_ref = p.payment_ref)
    (ref : String) :
    findPurchaseByRef (updatePurchase db pid g) ref =
      (findPurchaseByRef db ref).map (fun p => if p.id == pid then g p else p) := by
  have hf : ∀ x : PurchaseRow,
      ((if x.id == pid then g x else x).payment_ref == ref) = (x.payment_ref == ref) := by
    intro x
    by_cases hx : x.id == pid
    · simp [hx, hg]
    · simp [hx]
  unfold findPurchaseByRef updatePurchase
  exact find?_map_of_pred _ _ hf db.coin_purchases

/-- C1: deducting more coins than the balance fails with 400: when the
requester is the owner or an admin, the amount is a positive number
exceeding the user's current coins, POST /coins/:userId/deduct responds
with the 400 insufficient-coins JSON body (currentCoins, requested,
shortfall) and leaves the snapshot - balances and ledger - unchanged;
likewise deductCoins returns the Insufficient-coins error and rolls back
whenever the amount exceeds the balance. -/
theorem c1_deduct_insufficient_fails_400 (db : DB) (reqUser : ReqUser)
    (userId : Nat) (amt : Int) (u : UserRow)
    (reason refType : Option String) (refId : Option Nat) (lf insf : Bool)
    (hauth : reqUser.id = userId ∨ reqUser.user_type = "admin")
    (hfind : findUser db userId = some u)
    (hpos : 0 < amt) (hlt : u.coins < amt) :
    deductRoute db reqUser userId (some amt) reason refType refId lf
      = (.insufficient u.coins amt (amt - u.coins), db) ∧
    (DeductResp.insufficient u.coins amt (amt - u.coins)).http = ⟨400, true⟩ ∧
    deductCoins db userId amt reason refType refId insf
      = (.insufficient u.coins amt, db) := by
  have hb : (reqUser.id == userId || reqUser.user_type == "admin") = true := by
    rcases hauth with h | h <;> simp [h]
  have hnle : ¬ amt ≤ 0 := not_le.mpr hpos
  refine ⟨?_, rfl, ?_⟩
  · simp [deductRoute, hb, hfind, hnle, hlt]
  · simp [deductCoins, hfind, hlt]

/-- C1 witness: user 1 holds 10 coins; the owner's request to deduct 25
is rejected with the 400 insufficient response and nothing changes. -/
theorem c1_deduct_insufficient_fails_400_witness :
    deductRoute dbOneUser ⟨1, "farmer"⟩ 1 (some 25) none none none false
      = (.insufficient 10 25 15, dbOneUser) ∧
    (DeductResp.insufficient 10 25 15).http = ⟨400, true⟩ ∧
    deductCoins dbOneUser 1 25 none none none false
      = (.insufficient 10 25, dbOneUser) :=
  c1_deduct_insufficient_fails_400 dbOneUser ⟨1, "farmer"⟩ 1 25
    { id := 1, coins := 10, locked_coins := 0, stripe_connect_account_id := none }
    none none none false false (Or.inl rfl) (by decide) (by decide) (by decide)

/-- C8: the webhook receiver verifies the signature header: with Stripe
configured, a request whose signature fails verification (constructEvent
throws) gets HTTP 400 and the snapshot is untouched (the handler returns
before any query), and a verified event of any other type than
checkout.session.completed is acknowledged with received: true, also
without modifying any state. -/
theorem c8_webhook_signature_and_type_guard (db : DB) (req : WebhookReq)
    (hconf : req.configured = true) :
    (req.sigValid = false →
      stripeWebhook db req = (.sigError, db) ∧ WebhookResp.sigError.http = ⟨400, false⟩) ∧
    (req.sigValid = true → req.eventType ≠ "checkout.session.completed" →
      stripeWebhook db req = (.received, db)) := by
  constructor
  · intro hsig
    exact ⟨by simp [stripeWebhook, hconf, hsig], rfl⟩
  · intro hsig htype
    simp [stripeWebhook, hconf, hsig, htype]

/-- C8 witness: a badly signed request is rejected with 400 and the
snapshot stays intact; a verified invoice.paid event is acknowledged
untouched. -/
theorem c8_webhook_signature_and_type_guard_witness :
    (stripeWebhook dbOneUser
        { configured := true, sigValid := false,
          eventType := "checkout.session.completed", sessionId := "cs_x",
          insertFails := false } = (.sigError, dbOneUser) ∧
      WebhookResp.sigError.http = ⟨400, false⟩) ∧
    stripeWebhook dbOneUser
        { configured := true, sigValid := true, eventType := "invoice.paid",
          sessionId := "cs_x", insertFails := false } = (.received, dbOneUser) := by
  constructor
  · exact (c8_webhook_signature_and_type_guard dbOneUser
      { configured := true, sigValid := false,
        eventType := "checkout.session.completed", sessionId := "cs_x",
        insertFails := false } rfl).1 rfl
  · exact (c8_webhook_signature_and_type_guard dbOneUser
      { configured := true, sigValid := true, eventType := "invoice.paid",
        sessionId := "cs_x", insertFails := false } rfl).2 rfl (by decide)

/-- C10: every successful deductCoins call appends exactly one ledger row
of type debit whose balance_after is the previous coins minus the amount,
every successful creditCoins call - with no restriction on the amount
relative to the balance - appends exactly one ledger row of type credit
whose balance_after is the previous coins plus the amount, and in both
cases that balance_after equals the coins value written to the users row
and the newBalance handed back to the caller. -/
theorem c10_wallet_ledger_rows_exact (db : DB) (userId : Nat) (amt : Int)
    (u : UserRow) (reason refType : Option String) (refId : Option Nat)
    (hfind : findUser db userId = some u) :
    (¬ u.coins < amt →
      deductCoins db userId amt reason refType refId false
        = (.ok (u.coins - amt),
           appendTx (updateUser db userId (fun v => { v with coins := u.coins - amt }))
             { user_id := userId, type := "debit", amount := amt,
               balance_after := u.coins - amt, reason := reason.getD "Purchase",
               ref_type := refType, ref_id := refId, status := some "completed" }) ∧
      findUser (deductCoins db userId amt reason refType refId false).2 userId
        = some { u with coins := u.coins - amt }) ∧
    creditCoins db userId amt reason refType refId false
      = (.ok (u.coins + amt),
         appendTx (updateUser db userId (fun v => { v with coins := u.coins + amt }))
           { user_id := userId, type := "credit", amount := amt,
             balance_after := u.coins + amt, reason := reason.getD "Credit",
             ref_type := refType, ref_id := refId, status := some "completed" }) ∧
    findUser (creditCoins db userId amt reason refType refId false).2 userId
      = some { u with coins := u.coins + amt } := by
  have hc : creditCoins db userId amt reason refType refId false
      = (.ok (u.coins + amt),
         appendTx (updateUser db userId (fun v => { v with coins := u.coins + amt }))
           { user_id := userId, type := "credit", amount := amt,
             balance_after := u.coins + amt, reason := reason.getD "Credit",
             ref_type := refType, ref_id := refId, status := some "completed" }) := by
    simp [creditCoins, hfind]
  refine ⟨?_, hc, ?_⟩
  · intro hle
    have hd : deductCoins db userId amt reason refType refId false
        = (.ok (u.coins - amt),
           appendTx (updateUser db userId (fun v => { v with coins := u.coins - amt }))
             { user_id := userId, type := "debit", amount := amt,
               balance_after := u.coins - amt, reason := reason.getD "Purchase",
               ref_type := refType, ref_id := refId, status := some "completed" }) := by
      simp [deductCoins, hfind, hle]
    refine ⟨hd, ?_⟩
    rw [hd]
    exact findUser_updateUser_self db userId
      (fun v => { v with coins := u.coins - amt }) (fun _ => rfl) u hfind
  · rw [hc]
    exact findUser_updateUser_self db userId
      (fun v => { v with coins := u.coins + amt }) (fun _ => rfl) u hfind

/-- C10 witness: deducting 4 of user 1's 10 coins records a debit row
with balance_after 6 and leaves the user at 6 coins; crediting 50 -
more than the current balance of 10, the ordinary coin-purchase case -
succeeds with newBalance 60 and leaves the user at 60 coins. -/
theorem c10_wallet_ledger_rows_exact_witness :
    findUser (deductCoins dbOneUser 1 4 none none none false).2 1
      = some { id := 1, coins := 6, locked_coins := 0, stripe_connect_account_id := none } ∧
    (creditCoins dbOneUser 1 50 none none none false).1 = .ok 60 ∧
    findUser (creditCoins dbOneUser 1 50 none none none false).2 1
      = some { id := 1, coins := 60, locked_coins := 0, stripe_connect_account_id := none } := by
  have h4 := c10_wallet_ledger_rows_exact dbOneUser 1 4
    { id := 1, coins := 10, locked_coins := 0, stripe_connect_account_id := none }
    none none none (by decide)
  have h50 := c10_wallet_ledger_rows_exact dbOneUser 1 50
    { id := 1, coins := 10, locked_coins := 0, stripe_connect_account_id := none }
    none none none (by decide)
  exact ⟨(h4.1 (by decide)).2, by rw [h50.2.1]; decide, h50.2.2⟩

/-- C4: locked coins are exactly the balance reserved pending redemption
review: a successful createRedemptionRequest decreases the user's coins
by coins_requested and increases locked_coins by the same amount (the sum
coins + locked_coins is unchanged), and rejectRedemption of a pending or
under_review request moves the same coins_requested back from
locked_coins to coins, again preserving the sum. -/
theorem c4_locked_coins_reserved (db : DB) (userId : Nat) (cr : Int)
    (payoutMethodId : Option Nat) (u : UserRow)
    (rid2 : Nat) (r : RedemptionRow) (u2 : UserRow)
    (hmin : REDEMPTION_MIN_COINS ≤ cr) (hmax : cr ≤ REDEMPTION_MAX_COINS)
    (hnopending : db.redemption_requests.any
        (fun x => x.user_id == userId && (x.status == "pending" || x.status == "under_review")) = false)
    (hpm : match payoutMethodId with
           | none => True
           | some pmid => ∃ m, findPayoutMethod db pmid = some m ∧ m.user_id = userId)
    (hfind : findUser db userId = some u) (hbal : ¬ u.coins < cr)
    (hfindr : findRedemption db rid2 = some r)
    (hstatus : r.status = "pending" ∨ r.status = "under_review")
    (hfu2 : findUser db r.user_id = some u2) :
    ((createRedemptionRequest db userId cr payoutMethodId).1
        = .ok (nextId (db.redemption_requests.map (fun x => x.id))) (payoutCentsOf cr) ∧
      findUser (createRedemptionRequest db userId cr payoutMethodId).2 userId
        = some { u with coins := u.coins - cr, locked_coins := u.locked_coins + cr } ∧
      (u.coins - cr) + (u.locked_coins + cr) = u.coins + u.locked_coins) ∧
    ((rejectRedemption db rid2).1 = .ok ∧
      findUser (rejectRedemption db rid2).2 r.user_id
        = some { u2 with coins := u2.coins + r.coins_requested,
                         locked_coins := u2.locked_coins - r.coins_requested } ∧
      (u2.coins + r.coins_requested) + (u2.locked_coins - r.coins_requested)
        = u2.coins + u2.locked_coins) := by
  have h2 := findUser_updateUser_self db userId
    (fun v => { v with coins := u.coins - cr, locked_coins := u.locked_coins + cr })
    (fun _ => rfl) u hfind
  have hb : (r.status == "pending" || r.status == "under_review") = true := by
    rcases hstatus with h | h <;> simp [h]
  have h3 := findUser_updateUser_self db r.user_id
    (fun v => { v with coins := v.coins + r.coins_requested,
                       locked_coins := v.locked_coins - r.coins_requested })
    (fun _ => rfl) u2 hfu2
  refine ⟨?_, ?_, ?_⟩
  · cases payoutMethodId with
    | none =>
      refine ⟨?_, ?_, by ring⟩
      · simp [createRedemptionRequest, hmin, hmax, hnopending, hfind, hbal, payoutCentsOf]
      · simp [createRedemptionRequest, hmin, hmax, hnopending, hfind, hbal]
        exact h2
    | some pmid =>
      obtain ⟨m, hm, hmu⟩ := hpm
      refine ⟨?_, ?_, by ring⟩
      · simp [createRedemptionRequest, hmin, hmax, hnopending, hm, hmu, hfind, hbal,
          payoutCentsOf]
      · simp [createRedemptionRequest, hmin, hmax, hnopending, hm, hmu, hfind, hbal]
        exact h2
  · simp [rejectRedemption, hfindr, hb, hfu2]
  · refine ⟨?_, by ring⟩
    simp [rejectRedemption, hfindr, hb, hfu2]
    exact h3

/-- C4 witness: user 3 redeems 1000 of 1500 coins (coins drop to 500,
locked rises to 1000, payout 800 cents after the 20 percent fee), and
rejecting user 4's pending redemption 9 moves 800 locked coins back to
available. -/
theorem c4_locked_coins_reserved_witness :
    ((createRedemptionRequest dbRedeemAndReject 3 1000 none).1 = .ok 10 800 ∧
      findUser (createRedemptionRequest dbRedeemAndReject 3 1000 none).2 3
        = some { id := 3, coins := 500, locked_coins := 1000,
                 stripe_connect_account_id := none }) ∧
    ((rejectRedemption dbRedeemAndReject 9).1 = .ok ∧
      findUser (rejectRedemption dbRedeemAndReject 9).2 4
        = some { id := 4, coins := 800, locked_coins := 0,
                 stripe_connect_account_id := none }) := by
  have h := c4_locked_coins_reserved dbRedeemAndReject 3 1000 none
    { id := 3, coins := 1500, locked_coins := 0, stripe_connect_account_id := none }
    9 { id := 9, user_id := 4, coins_requested := 800, status := "pending",
        stripe_transfer_id := none, payout_method_id := none }
    { id := 4, coins := 0, locked_coins := 800, stripe_connect_account_id := none }
    (by decide) (by decide) (by decide) trivial (by decide) (by decide)
    (by decide) (Or.inl rfl) (by decide)
  exact ⟨⟨h.1.1, h.1.2.1⟩, ⟨h.2.1, h.2.2.1⟩⟩

/-- C9 counterexample: the claim says creditCoins requires a positive
amount and leaves a non-negative balance non-negative on success. On the
code, creditCoins performs no amount validation at all: called with
amount -15 on user 1 (whose balance is the non-negative 10) it succeeds
and writes the negative balance -5. -/
theorem c9_creditCoins_negative_counterexample :
    (creditCoins dbOneUser 1 (-15) none none none false).1 = .ok (-5) ∧
    findUser (creditCoins dbOneUser 1 (-15) none none none false).2 1
      = some { id := 1, coins := -5, locked_coins := 0,
               stripe_connect_account_id := none } := by
  constructor <;> decide

/-- C9 (amended): PUT /coins/:userId rejects a non-number or negative
value with 400 and otherwise writes the given non-negative value;
POST /coins/:userId/deduct (positive amount, amount at most the balance)
leaves the balance non-negative whether the ledger insert succeeds (the
deduction commits) or fails (the aborted transaction rolls everything
back, leaving the row untouched); deductCoins (amount at most the
balance, no positivity check) leaves the balance non-negative on
success; POST /coins/:userId/add (positive amount) and creditCoins
restricted to non-negative amounts preserve a non-negative balance;
creditCoins itself validates nothing, so only the restricted form is an
invariant. -/
theorem c9_nonnegative_balance_invariant (db : DB) (reqUser : ReqUser)
    (userId : Nat) (c amt : Int) (u : UserRow)
    (reason refType : Option String) (refId : Option Nat)
    (hauth : reqUser.id = userId ∨ reqUser.user_type = "admin")
    (hfind : findUser db userId = some u) :
    ((putCoinsRoute db reqUser userId none).1 = .invalidAmount) ∧
    (c < 0 → (putCoinsRoute db reqUser userId (some c)).1 = .invalidAmount) ∧
    (¬ c < 0 →
      findUser (putCoinsRoute db reqUser userId (some c)).2 userId
        = some { u with coins := c } ∧ 0 ≤ c) ∧
    (0 < amt → ¬ u.coins < amt →
      (findUser (deductRoute db reqUser userId (some amt) reason refType refId false).2 userId
        = some { u with coins := u.coins - amt } ∧ 0 ≤ u.coins - amt) ∧
      findUser (deductRoute db reqUser userId (some amt) reason refType refId true).2 userId
        = some u) ∧
    (¬ u.coins < amt →
      (deductCoins db userId amt reason refType refId false).1 = .ok (u.coins - amt) ∧
      0 ≤ u.coins - amt) ∧
    (0 < amt → 0 ≤ u.coins →
      findUser (addRoute db reqUser userId (some amt)).2 userId
        = some { u with coins := u.coins + amt } ∧ 0 ≤ u.coins + amt) ∧
    (0 ≤ amt → 0 ≤ u.coins →
      (creditCoins db userId amt reason refType refId false).1 = .ok (u.coins + amt) ∧
      0 ≤ u.coins + amt) := by
  have hb : (reqUser.id == userId || reqUser.user_type == "admin") = true := by
    rcases hauth with h | h <;> simp [h]
  refine ⟨?_, ?_, ?_, ?_, ?_, ?_, ?_⟩
  · simp [putCoinsRoute, hb]
  · intro hc
    simp [putCoinsRoute, hb, hc]
  · intro hc
    have h2 := findUser_updateUser_self db userId
      (fun v => { v with coins := c }) (fun _ => rfl) u hfind
    refine ⟨?_, not_lt.mp hc⟩
    simp [putCoinsRoute, hb, hc, hfind]
    exact h2
  · intro hpos hle
    have h2 := findUser_updateUser_self db userId
      (fun v => { v with coins := u.coins - amt }) (fun _ => rfl) u hfind
    have hnle : ¬ amt ≤ 0 := not_le.mpr hpos
    refine ⟨⟨?_, by linarith [not_lt.mp hle]⟩, ?_⟩
    · simp [deductRoute, hb, hfind, hnle, hle]
      exact h2
    · simp [deductRoute, hb, hfind, hnle, hle]
  · intro hle
    exact ⟨by simp [deductCoins, hfind, hle], by linarith [not_lt.mp hle]⟩
  · intro hpos hnn
    have h2 := findUser_updateUser_self db userId
      (fun v => { v with coins := u.coins + amt }) (fun _ => rfl) u hfind
    have hnle : ¬ amt ≤ 0 := not_le.mpr hpos
    refine ⟨?_, by linarith⟩
    simp [addRoute, addRouteRead, addRouteWrite, hb, hfind, hnle]
    exact h2
  · intro hnn hnn2
    exact ⟨by simp [creditCoins, hfind], by linarith⟩

/-- C9 witness: with user 1 at 10 coins, the owner's PUT of -3 is
rejected, a PUT of 7 stores 7, a deduct of 4 leaves 6, deductCoins of 10
leaves 0, an add of 4 leaves 14, and creditCoins of 0 keeps 10 - all
non-negative. -/
theorem c9_nonnegative_balance_invariant_witness :
    (putCoinsRoute dbOneUser ⟨1, "farmer"⟩ 1 (some (-3))).1 = .invalidAmount ∧
    findUser (putCoinsRoute dbOneUser ⟨1, "farmer"⟩ 1 (some 7)).2 1
      = some { id := 1, coins := 7, locked_coins := 0, stripe_connect_account_id := none } ∧
    findUser (deductRoute dbOneUser ⟨1, "farmer"⟩ 1 (some 4) none none none false).2 1
      = some { id := 1, coins := 6, locked_coins := 0, stripe_connect_account_id := none } ∧
    (deductCoins dbOneUser 1 10 none none none false).1 = .ok 0 ∧
    findUser (addRoute dbOneUser ⟨1, "farmer"⟩ 1 (some 4)).2 1
      = some { id := 1, coins := 14, locked_coins := 0, stripe_connect_account_id := none } ∧
    (creditCoins dbOneUser 1 0 none none none false).1 = .ok 10 := by
  have h := c9_nonnegative_balance_invariant dbOneUser ⟨1, "farmer"⟩ 1 7 4
    { id := 1, coins := 10, locked_coins := 0, stripe_connect_account_id := none }
    none none none (Or.inl rfl) (by decide)
  have h0 := c9_nonnegative_balance_invariant dbOneUser ⟨1, "farmer"⟩ 1 (-3) 10
    { id := 1, coins := 10, locked_coins := 0, stripe_connect_account_id := none }
    none none none (Or.inl rfl) (by decide)
  have hc := c9_nonnegative_balance_invariant dbOneUser ⟨1, "farmer"⟩ 1 7 0
    { id := 1, coins := 10, locked_coins := 0, stripe_connect_account_id := none }
    none none none (Or.inl rfl) (by decide)
  refine ⟨h0.2.1 (by decide), (h.2.2.1 (by decide)).1,
    ((h.2.2.2.1 (by decide) (by decide)).1).1, (h0.2.2.2.2.1 (by decide)).1,
    (h.2.2.2.2.2.1 (by decide) (by decide)).1, (hc.2.2.2.2.2.2 (by decide) (by decide)).1⟩

/-- C5 counterexample: the claim says every failure inside a transaction
rolls back and that the error propagates to the caller instead of being
swallowed. In POST /coins/:userId/deduct the coin_transactions INSERT
failure is caught and only logged: the rollback half does happen (the
INSERT aborts the PostgreSQL transaction, so the final COMMIT rolls the
deduction back and the snapshot is unchanged), but the handler still
responds 200 with a success payload built from the pre-abort values,
claiming 4 coins were deducted from user 1's balance of 10 - the failure
never reaches the caller, who is told the deduction succeeded although
nothing changed. -/
theorem c5_deduct_route_swallows_ledger_failure :
    (deductRoute dbOneUser ⟨2, "admin"⟩ 1 (some 4) none none none true).1
      = .ok 6 4 10 6 ∧
    (DeductResp.ok 6 4 10 6).http = ⟨200, true⟩ ∧
    (deductRoute dbOneUser ⟨2, "admin"⟩ 1 (some 4) none none none true).2
      = dbOneUser := by
  refine ⟨by decide, rfl, by decide⟩

/-- C5 (amended): in deductCoins, creditCoins, the webhook credit block,
createRedemptionRequest and rejectRedemption, any failure inside the
database transaction rolls the transaction back (the snapshot is
returned unchanged) and the error propagates to the caller (the outcome
is not a success value); in approveRedemption every outcome either
leaves the snapshot unchanged (its first transaction's rollback
branches), is one of the designed committed outcomes
(paid / manual approval / compensated transfer failure), or is the
modelled failure inside its follow-up transaction, which rolls that
transaction back so that exactly the already-committed status update of
the first transaction persists and the error surfaces; the one exception
is the deduct route, whose coin_transactions INSERT failure is caught
and only logged: the aborted transaction's COMMIT rolls the deduction
back, yet the handler answers 200 with the pre-abort success payload, so
the error is swallowed rather than propagated. -/
theorem c5_tx_failures_roll_back_and_propagate :
    (∀ (db : DB) (uid : Nat) (amt : Int) (r rt : Option String) (ri : Option Nat),
      (deductCoins db uid amt r rt ri true).2 = db ∧
      ∀ nb, (deductCoins db uid amt r rt ri true).1 ≠ SvcResult.ok nb) ∧
    (∀ (db : DB) (uid : Nat) (amt : Int) (r rt : Option String) (ri : Option Nat),
      (creditCoins db uid amt r rt ri true).2 = db ∧
      ∀ nb, (creditCoins db uid amt r rt ri true).1 ≠ SvcResult.ok nb) ∧
    (∀ (db : DB) (req : WebhookReq), req.insertFails = true →
      (stripeWebhook db req).2 = db ∧ (stripeWebhook db req).1 ≠ .creditedOk) ∧
    (∀ (db : DB) (userId : Nat) (cr : Int) (pm : Option Nat),
      (∃ rid pac, (createRedemptionRequest db userId cr pm).1 = .ok rid pac) ∨
      (createRedemptionRequest db userId cr pm).2 = db) ∧
    (∀ (db : DB) (rid : Nat),
      (rejectRedemption db rid).1 = .ok ∨ (rejectRedemption db rid).2 = db) ∧
    (∀ (db : DB) (rid : Nat) (tOk : Bool) (tid : String),
      (approveRedemption db rid tOk tid).2 = db ∨
      (approveRedemption db rid tOk tid).1 = .paid tid ∨
      (approveRedemption db rid tOk tid).1 = .manualApproved ∨
      (approveRedemption db rid tOk tid).1 = .transferFailed ∨
      ((approveRedemption db rid tOk tid).1 = .userMissing ∧
        (approveRedemption db rid tOk tid).2
          = updateRedemption db rid (fun x => { x with status := "approved" }))) ∧
    (∀ (db : DB) (reqUser : ReqUser) (userId : Nat) (amt : Int) (u : UserRow)
       (reason refType : Option String) (refId : Option Nat),
      (reqUser.id = userId ∨ reqUser.user_type = "admin") →
      findUser db userId = some u → 0 < amt → ¬ u.coins < amt →
      deductRoute db reqUser userId (some amt) reason refType refId true
        = (.ok (u.coins - amt) amt u.coins (u.coins - amt), db)) := by
  refine ⟨?_, ?_, ?_, ?_, ?_, ?_, ?_⟩
  · intro db uid amt r rt ri
    constructor
    · unfold deductCoins
      repeat' split
      all_goals first | rfl | simp_all
    · intro nb
      unfold deductCoins
      repeat' split
      all_goals first | rfl | simp_all
  · intro db uid amt r rt ri
    constructor
    · unfold creditCoins
      repeat' split
      all_goals first | rfl | simp_all
    · intro nb
      unfold creditCoins
      repeat' split
      all_goals first | rfl | simp_all
  · intro db req h
    constructor
    · unfold stripeWebhook
      rw [h]
      repeat' split
      all_goals first | rfl | simp_all
    · unfold stripeWebhook
      rw [h]
      repeat' split
      all_goals first | rfl | simp_all
  · intro db userId cr pm
    unfold createRedemptionRequest
    repeat' split
    all_goals first
      | (left; exact ⟨_, _, rfl⟩)
      | (right; rfl)
  · intro db rid
    unfold rejectRedemption
    repeat' split
    all_goals first | (left; rfl) | (right; rfl)
  · intro db rid tOk tid
    unfold approveRedemption
    dsimp only
    repeat' split
    all_goals first
      | (left; rfl)
      | (right; left; rfl)
      | (right; right; left; rfl)
      | (right; right; right; left; rfl)
      | (right; right; right; right; exact ⟨rfl, rfl⟩)
  · intro db reqUser userId amt u reason refType refId hauth hfind hpos hle
    have hb : (reqUser.id == userId || reqUser.user_type == "admin") = true := by
      rcases hauth with h | h <;> simp [h]
    have hnle : ¬ amt ≤ 0 := not_le.mpr hpos
    simp [deductRoute, hb, hfind, hnle, hle]

/-- C5 witness: the amended statement instantiated on user 1 with 10
coins - an injected ledger failure makes deductCoins report an error with
the snapshot intact, while the deduct route answers with a success
payload although the aborted transaction left the snapshot unchanged. -/
theorem c5_tx_failures_roll_back_and_propagate_witness :
    ((deductCoins dbOneUser 1 4 none none none true).2 = dbOneUser ∧
      (deductCoins dbOneUser 1 4 none none none true).1 ≠ SvcResult.ok 6) ∧
    deductRoute dbOneUser ⟨1, "farmer"⟩ 1 (some 4) none none none true
      = (.ok 6 4 10 6, dbOneUser) := by
  have h := c5_tx_failures_roll_back_and_propagate
  exact ⟨⟨(h.1 dbOneUser 1 4 none none none).1,
          (h.1 dbOneUser 1 4 none none none).2 6⟩,
         h.2.2.2.2.2.2 dbOneUser ⟨1, "farmer"⟩ 1 4
            { id := 1, coins := 10, locked_coins := 0, stripe_connect_account_id := none }
            none none none (Or.inl rfl) (by decide) (by decide) (by decide)⟩

/-- C2: a webhook replay does not double-credit coins: when the
coin_purchases row matched by payment_ref is already completed, the
handler answers received plus already_processed and leaves the snapshot
untouched; when it is still pending, the first run credits
coins_purchased exactly once and the second run on the resulting
snapshot answers already_processed and changes nothing. -/
theorem c2_webhook_replay_idempotent (db : DB) (req : WebhookReq)
    (p : PurchaseRow) (u : UserRow)
    (hconf : req.configured = true) (hsig : req.sigValid = true)
    (htype : req.eventType = "checkout.session.completed")
    (hins : req.insertFails = false)
    (hfindp : findPurchaseByRef db req.sessionId = some p) :
    (p.status = "completed" → stripeWebhook db req = (.alreadyProcessed, db)) ∧
    (p.status ≠ "completed" → findPurchaseById db p.id = some p →
      findUser db p.farmer_id = some u →
      (stripeWebhook db req).1 = .creditedOk ∧
      findUser (stripeWebhook db req).2 p.farmer_id
        = some { u with coins := u.coins + p.coins_purchased } ∧
      stripeWebhook (stripeWebhook db req).2 req
        = (.alreadyProcessed, (stripeWebhook db req).2)) := by
  constructor
  · intro h
    simp [stripeWebhook, hconf, hsig, htype, hfindp, h]
  · intro hne hlock hfu
    have hsb : (p.status == "completed") = false := by simp [hne]
    have key : stripeWebhook db req
        = (.creditedOk,
           updatePurchase
             (appendTx
               (updateUser db p.farmer_id
                 (fun v => { v with coins := u.coins + p.coins_purchased }))
               { user_id := p.farmer_id, type := "credit",
                 amount := p.coins_purchased,
                 balance_after := u.coins + p.coins_purchased,
                 reason := "Coin purchase", ref_type := some "coin_purchase",
                 ref_id := some p.id, status := some "completed" })
             p.id (fun q => { q with status := "completed" })) := by
      simp [stripeWebhook, hconf, hsig, htype, hins, hfindp, hsb, hlock, hfu]
    refine ⟨by rw [key], ?_, ?_⟩
    · rw [key]
      exact findUser_updateUser_self db p.farmer_id
        (fun v => { v with coins := u.coins + p.coins_purchased })
        (fun _ => rfl) u hfu
    · rw [key]
      have hfind2 : findPurchaseByRef
          (updatePurchase
            (appendTx
              (updateUser db p.farmer_id
                (fun v => { v with coins := u.coins + p.coins_purchased }))
              { user_id := p.farmer_id, type := "credit",
                amount := p.coins_purchased,
                balance_after := u.coins + p.coins_purchased,
                reason := "Coin purchase", ref_type := some "coin_purchase",
                ref_id := some p.id, status := some "completed" })
            p.id (fun q => { q with status := "completed" })) req.sessionId
          = some { p with status := "completed" } := by
        rw [findPurchaseByRef_updatePurchase _ p.id
          (fun q => { q with status := "completed" }) (fun _ => rfl)]
        have hsame : findPurchaseByRef
            (appendTx
              (updateUser db p.farmer_id
                (fun v => { v with coins := u.coins + p.coins_purchased }))
              { user_id := p.farmer_id, type := "credit",
                amount := p.coins_purchased,
                balance_after := u.coins + p.coins_purchased,
                reason := "Coin purchase", ref_type := some "coin_purchase",
                ref_id := some p.id, status := some "completed" }) req.sessionId
            = findPurchaseByRef db req.sessionId := rfl
        rw [hsame, hfindp]
        simp
      simp [stripeWebhook, hconf, hsig, htype, hfind2]

/-- C2 witness: with the pending 50-coin purchase for session cs_test_1,
the first webhook run credits user 1 from 10 to 60 coins and the second
run reports already_processed without further changes; on the
already-completed copy of that snapshot the handler changes nothing. -/
theorem c2_webhook_replay_idempotent_witness :
    stripeWebhook dbCompletedPurchase reqValidCheckout
      = (.alreadyProcessed, dbCompletedPurchase) ∧
    (stripeWebhook dbPendingPurchase reqValidCheckout).1 = .creditedOk ∧
    findUser (stripeWebhook dbPendingPurchase reqValidCheckout).2 1
      = some { id := 1, coins := 60, locked_coins := 0,
               stripe_connect_account_id := none } ∧
    stripeWebhook (stripeWebhook dbPendingPurchase reqValidCheckout).2 reqValidCheckout
      = (.alreadyProcessed, (stripeWebhook dbPendingPurchase reqValidCheckout).2) := by
  have ha := c2_webhook_replay_idempotent dbCompletedPurchase reqValidCheckout
    { id := 4, farmer_id := 1, coins_purchased := 50,
      payment_ref := "cs_test_1", status := "completed" }
    { id := 1, coins := 10, locked_coins := 0, stripe_connect_account_id := none }
    rfl rfl rfl rfl (by decide)
  have hb := c2_webhook_replay_idempotent dbPendingPurchase reqValidCheckout
    { id := 4, farmer_id := 1, coins_purchased := 50,
      payment_ref := "cs_test_1", status := "pending" }
    { id := 1, coins := 10, locked_coins := 0, stripe_connect_account_id := none }
    rfl rfl rfl rfl (by decide)
  have hb2 := hb.2 (by decide) (by decide) (by decide)
  exact ⟨ha.1 rfl, hb2.1, hb2.2.1, hb2.2.2⟩

/-- C3: the claim says a second approveRedemption after a first
successful approval changes nothing. The manual-payout branch (user
without a Stripe Connect account) leaves the redemption at status
`approved` instead of `paid`, so the second call passes the status
guards and deducts locked_coins again: on the sample snapshot the first
call takes user 7 from 1000 to 0 locked coins, the second call reports
success again and drives locked_coins to -1000 with a duplicate
redeem_approved ledger row - the code contradicts the idempotency its
own Already-paid guard is there to provide. -/
theorem c3_approve_twice_manual_payout_double_deducts :
    (approveRedemption dbManualRedemption 1 true "tr_1").1 = .manualApproved ∧
    findUser (approveRedemption dbManualRedemption 1 true "tr_1").2 7
      = some { id := 7, coins := 0, locked_coins := 0,
               stripe_connect_account_id := none } ∧
    (approveRedemption (approveRedemption dbManualRedemption 1 true "tr_1").2
        1 true "tr_1").1 = .manualApproved ∧
    findUser (approveRedemption (approveRedemption dbManualRedemption 1 true "tr_1").2
        1 true "tr_1").2 7
      = some { id := 7, coins := 0, locked_coins := -1000,
               stripe_connect_account_id := none } ∧
    (approveRedemption (approveRedemption dbManualRedemption 1 true "tr_1").2
        1 true "tr_1").2
      ≠ (approveRedemption dbManualRedemption 1 true "tr_1").2 := by
  refine ⟨by decide, by decide, by decide, by decide, by decide⟩

/-- C6 counterexample: the claim says every error response uses one of
400/401/403/404/409/500 and carries a JSON body. POST
/coins/purchase-intent answers 503 when Stripe is unconfigured (a status
outside the list), and both the webhook's signature failure (400) and
the rented-fields list catch block (500) send plain-text bodies. -/
theorem c6_error_status_counterexample :
    purchaseIntentNoStripeResp.status = 503 ∧
    purchaseIntentNoStripeResp.status ∉ specErrorStatuses ∧
    WebhookResp.sigError.http = ⟨400, false⟩ ∧
    rentedFieldsListErrorResp = ⟨500, false⟩ := by
  refine ⟨rfl, by decide, rfl, rfl⟩

/-- C6 (amended): error responses use the status codes
400/401/403/404/409/500 or additionally 503; the coin-route handlers
(deduct, add, put) answer JSON on every branch, while the webhook's
error branches and several catch blocks (for example the rented-fields
list) send plain-text bodies. -/
theorem c6_error_statuses_amended :
    (∀ r : DeductResp, r.http.status ∈ 200 :: (503 :: specErrorStatuses) ∧
      r.http.jsonBody = true) ∧
    (∀ r : AddResp, r.http.status ∈ 200 :: (503 :: specErrorStatuses) ∧
      r.http.jsonBody = true) ∧
    (∀ r : WebhookResp, r.http.status ∈ 200 :: (503 :: specErrorStatuses) ∧
      (r.http.status ≠ 200 → r.http.jsonBody = false)) ∧
    purchaseIntentNoStripeResp.status ∈ (503 :: specErrorStatuses) ∧
    purchaseIntentNoStripeResp.jsonBody = true ∧
    rentedFieldsListErrorResp.status ∈ (503 :: specErrorStatuses) ∧
    rentedFieldsListErrorResp.jsonBody = false := by
  refine ⟨?_, ?_, ?_, by decide, rfl, by decide, rfl⟩
  · intro r
    cases r <;> simp [DeductResp.http, specErrorStatuses]
  · intro r
    cases r <;> simp [AddResp.http, specErrorStatuses]
  · intro r
    cases r <;> simp [WebhookResp.http, specErrorStatuses]

/-- C7 counterexample: the claim says every coins mutation runs
lock-then-read inside a transaction, so requests are atomic. POST
/coins/:userId/add performs its mutation as an unguarded read-then-write
(its committed state is exactly write(read + amount) with no transaction
in between), and interleaving two add requests on user 1 (balance 10,
amounts 2 and 3) loses the first update: the interleaved final balance
is 13 while both serial orders give 15. -/
theorem c7_add_route_lost_update_counterexample :
    (addRoute dbOneUser ⟨1, "admin"⟩ 1 (some 2)).2
      = addRouteWrite dbOneUser 1 ((addRouteRead dbOneUser 1).getD 0 + 2) ∧
    findUser (addTwoInterleaved dbOneUser 1 2 3) 1
      = some { id := 1, coins := 13, locked_coins := 0,
               stripe_connect_account_id := none } ∧
    findUser (addTwoSerial dbOneUser 1 2 3) 1
      = some { id := 1, coins := 15, locked_coins := 0,
               stripe_connect_account_id := none } ∧
    addTwoInterleaved dbOneUser 1 2 3 ≠ addTwoSerial dbOneUser 1 2 3 := by
  refine ⟨by decide, by decide, by decide, by decide⟩

/-- C7 (amended): the deduct route, the wallet and redemption service
functions and the webhook credit run lock-then-read inside a single
transaction, but PUT /coins/:userId and POST /coins/:userId/add mutate
the balance through an unguarded read-then-write outside any
transaction: the add route's committed state is exactly
write(read + amount), and interleaving two add requests that both read
before either writes loses the first update whenever its amount is
non-zero. -/
theorem c7_add_route_not_atomic (db : DB) (userId : Nat) (u : UserRow)
    (a1 a2 : Int) (hfind : findUser db userId = some u)
    (h1 : 0 < a1) (h2 : 0 < a2) :
    (addRoute db ⟨userId, "admin"⟩ userId (some a1)).2
      = addRouteWrite db userId ((addRouteRead db userId).getD 0 + a1) ∧
    findUser (addTwoInterleaved db userId a1 a2) userId
      = some { u with coins := u.coins + a2 } ∧
    findUser (addTwoSerial db userId a1 a2) userId
      = some { u with coins := u.coins + a1 + a2 } ∧
    findUser (addTwoInterleaved db userId a1 a2) userId
      ≠ findUser (addTwoSerial db userId a1 a2) userId := by
  have hread : addRouteRead db userId = some u.coins := by
    simp [addRouteRead, hfind]
  have hnle1 : ¬ a1 ≤ 0 := not_le.mpr h1
  have hnle2 : ¬ a2 ≤ 0 := not_le.mpr h2
  have s1 := findUser_updateUser_self db userId
    (fun v => { v with coins := u.coins + a1 }) (fun _ => rfl) u hfind
  have s2 := findUser_updateUser_self
    (updateUser db userId (fun v => { v with coins := u.coins + a1 })) userId
    (fun v => { v with coins := u.coins + a2 }) (fun _ => rfl)
    { u with coins := u.coins + a1 } s1
  have s3 := findUser_updateUser_self
    (updateUser db userId (fun v => { v with coins := u.coins + a1 })) userId
    (fun v => { v with coins := u.coins + a1 + a2 }) (fun _ => rfl)
    { u with coins := u.coins + a1 } s1
  have hinter : findUser (addTwoInterleaved db userId a1 a2) userId
      = some { u with coins := u.coins + a2 } := by
    simp only [addTwoInterleaved, hread]
    exact s2
  have hserial : findUser (addTwoSerial db userId a1 a2) userId
      = some { u with coins := u.coins + a1 + a2 } := by
    have hr1 : (addRoute db ⟨userId, "admin"⟩ userId (some a1)).2
        = addRouteWrite db userId (u.coins + a1) := by
      simp [addRoute, hread, hnle1]
    have hread2 : addRouteRead (addRouteWrite db userId (u.coins + a1)) userId
        = some (u.coins + a1) := by
      unfold addRouteRead addRouteWrite
      rw [s1]
      rfl
    simp only [addTwoSerial, hr1]
    simp only [addRoute, hread2, hnle2, if_false]
    simp only [beq_self_eq_true, Bool.or_self_left]
    exact s3
  refine ⟨by simp [addRoute, hread, hnle1], hinter, hserial, ?_⟩
  rw [hinter, hserial]
  intro hcon
  have := (Option.some.injEq _ _).mp hcon
  have hc : u.coins + a2 = u.coins + a1 + a2 := congrArg UserRow.coins this
  omega

/-- C7 amended witness: the general lost-update statement instantiated
on user 1 with balance 10 and amounts 2 and 3. -/
theorem c7_add_route_not_atomic_witness :
    findUser (addTwoInterleaved dbOneUser 1 2 3) 1
      = some { id := 1, coins := 13, locked_coins := 0,
               stripe_connect_account_id := none } ∧
    findUser (addTwoInterleaved dbOneUser 1 2 3) 1
      ≠ findUser (addTwoSerial dbOneUser 1 2 3) 1 := by
  have h := c7_add_route_not_atomic dbOneUser 1
    { id := 1, coins := 10, locked_coins := 0, stripe_connect_account_id := none }
    2 3 (by decide) (by decide) (by decide)
  exact ⟨h.2.1, h.2.2.2⟩

end ShareCrop
